import Mathlib

/-!
Shallow embedding of the team analysis / projection engine of the
`rivals` application (`rivals/services/team_analysis_service.py`,
class `TeamAnalysisService`), together with theorems settling the
frozen claims about it.

Python floats are modelled as exact rationals (`ℚ`), Python ints as
`Int`, and fallible dictionary lookups (`dict.get` returning `None`,
or `_safe_float` swallowing a parse failure) as `Option ℚ` where
`none` stands for a missing / unparseable value.  Python's stable
`list.sort` is modelled by Mathlib's stable `List.insertionSort`
(stability and sortedness determine the output uniquely, so any
stable sorting algorithm is a faithful model).
-/

namespace Rivals

/-- Python `dict` record for one player ("element") of the bootstrap feed,
restricted to the keys the analysis service reads.  Numeric fields that the
service reads through `_safe_float` or a guarded `get` are `Option ℚ`
(`none` = key missing / value `None` / unparseable). -/
structure Player where
  id : Int
  element_type : Int
  team : Int
  minutes : Int
  form : Option ℚ
  points_per_game : Option ℚ
  total_points : ℚ
  now_cost : Option ℚ
  cost_change_event : ℚ
  selected_by_percent : Option ℚ
  first_name : String
  second_name : String
  deriving DecidableEq, Repr

/-- One fixture of the fixtures feed, restricted to the keys read by
`calculate_fixture_difficulty`.  The `event` (gameweek) key is modelled as
always present, since the source sorts fixtures by this key.  The two
difficulty ratings default to 3 when the key is missing (`fx.get(..., 3)`). -/
structure Fixture where
  event : Int
  team_h : Int
  team_a : Int
  team_h_difficulty : Option ℚ
  team_a_difficulty : Option ℚ
  finished : Bool
  deriving DecidableEq, Repr

/-- A team record of the bootstrap feed; only `short_name` is read. -/
structure TeamEntry where
  short_name : String
  deriving DecidableEq, Repr

/-- A scoring-period ("event") record of the bootstrap feed, restricted to
the keys read by `refresh_data`. -/
structure GwEvent where
  id : Int
  is_current : Bool
  deriving DecidableEq, Repr

/-- The bootstrap-static payload, restricted to the parts the service
stores: `elements`, `teams` (an association list, modelling the Python
dict comprehension `{t["id"]: t ...}`), and `events`. -/
structure Bootstrap where
  elements : List Player
  teams : List (Int × TeamEntry)
  events : List GwEvent
  deriving DecidableEq, Repr

/-- The mutable state of a `TeamAnalysisService` instance: the fields set
in `__init__` and replaced by `refresh_data`. -/
structure ServiceState where
  bootstrap : Option Bootstrap
  elements : List Player
  teams : List (Int × TeamEntry)
  events : List GwEvent
  fixtures : List Fixture
  current_gw : Int
  deriving DecidableEq, Repr

/-- One entry of a squad's `picks` list; the analysis service only ever
reads the `element` (player id) key. -/
structure SquadPick where
  element : Int
  deriving DecidableEq, Repr

/-- Python helper `_safe_float(value, default=0.0)`: a missing / `None` /
unparseable value becomes the default `0.0`. -/
def safe_float (value : Option ℚ) : ℚ := value.getD 0

/-- Python `str.strip()` applied to the display-name f-strings: drop
leading and trailing whitespace (structural implementation, so concrete
values evaluate inside the kernel). -/
def py_strip (s : String) : String :=
  String.mk (((s.toList.dropWhile Char.isWhitespace).reverse.dropWhile
      Char.isWhitespace).reverse)

/-- Python `get_position_name`. -/
def get_position_name (position_id : Int) : String :=
  if position_id = 1 then "GKP"
  else if position_id = 2 then "DEF"
  else if position_id = 3 then "MID"
  else if position_id = 4 then "FWD"
  else "UNK"

/-- Stable ascending sort by a key: model of Python
`sorted(l, key=key)` (Timsort is stable). -/
def sort_asc_by {α β : Type} [LinearOrder β] (key : α → β) (l : List α) : List α :=
  l.insertionSort (fun a b => key a ≤ key b)

/-- Stable descending sort by a key: model of Python
`l.sort(key=key, reverse=True)` (stable, ties keep list order). -/
def sort_desc_by {α β : Type} [LinearOrder β] (key : α → β) (l : List α) : List α :=
  l.insertionSort (fun a b => key b ≤ key a)

/-- One entry of the `team_fixtures` list built inside
`calculate_fixture_difficulty`. -/
structure TeamFixture where
  difficulty : ℚ
  is_home : Bool
  gameweek : Int
  deriving DecidableEq, Repr

/-- Python `calculate_fixture_difficulty(team_id, next_fixtures=5)`:
weighted average fixture difficulty over the next `next_fixtures`
unfinished fixtures of the team, with a 0.2 home discount, each value
clamped to [1, 5]; 3.0 when the team has no unfinished fixtures. -/
def calculate_fixture_difficulty (s : ServiceState) (team_id : Int)
    (next_fixtures : Nat) : ℚ :=
  let fixtures := s.fixtures.filter (fun f => !f.finished)
  let team_fixtures := fixtures.filterMap (fun fx =>
    if fx.team_h = team_id then
      some { difficulty := fx.team_h_difficulty.getD 3, is_home := true,
             gameweek := fx.event }
    else if fx.team_a = team_id then
      some { difficulty := fx.team_a_difficulty.getD 3, is_home := false,
             gameweek := fx.event }
    else (none : Option TeamFixture))
  let taken := (sort_asc_by (fun tf => tf.gameweek) team_fixtures).take next_fixtures
  if taken.isEmpty then 3
  else
    let weighted := taken.map (fun f =>
      let d := if f.is_home then max 1 (f.difficulty - 1/5) else f.difficulty
      max 1 (min 5 d))
    weighted.sum / (weighted.length : ℚ)

/-- Python `calculate_expected_points(player, fixture_difficulty)`:
`(form*0.6 + ppg*0.4) * multiplier * 5` with multiplier 1.2 below
difficulty 2.5, 0.8 at or above 4.0, else 1.0. -/
def calculate_expected_points (player : Player) (fixture_difficulty : ℚ) : ℚ :=
  let form := safe_float player.form
  let ppg := safe_float player.points_per_game
  let base := form * (3/5) + ppg * (2/5)
  let multiplier : ℚ :=
    if fixture_difficulty ≤ 5/2 then 6/5
    else if fixture_difficulty ≥ 4 then 4/5
    else 1
  base * multiplier * 5

/-- A candidate dict produced by `get_top_alternatives_by_position`. -/
structure Candidate where
  id : Int
  name : String
  team : Option String
  position : String
  total_points : ℚ
  form : ℚ
  points_per_game : ℚ
  price : ℚ
  price_change : ℚ
  ownership : ℚ
  fixture_difficulty_next_5 : ℚ
  expected_points_next_5 : ℚ
  value_rating : ℚ
  raw : Player
  deriving DecidableEq, Repr

/-- Loop body of `get_top_alternatives_by_position`: the candidate dict
built for one surviving player `p`.  `now_cost = p.get("now_cost") or 0`
collapses a missing key and an explicit zero to 0; the value rating is
`(total_points / (now_cost or 1)) * 10 if now_cost else 0.0`. -/
def alternative_candidate (s : ServiceState) (p : Player) : Candidate :=
  let team_id := p.team
  let fixture_difficulty := calculate_fixture_difficulty s team_id 5
  let expected := calculate_expected_points p fixture_difficulty
  let now_cost := p.now_cost.getD 0
  let value_rating : ℚ :=
    if now_cost ≠ 0 then
      p.total_points / (if now_cost = 0 then 1 else now_cost) * 10
    else 0
  { id := p.id,
    name := py_strip (p.first_name ++ " " ++ p.second_name),
    team := (s.teams.lookup team_id).map (fun t => t.short_name),
    position := get_position_name p.element_type,
    total_points := p.total_points,
    form := safe_float p.form,
    points_per_game := safe_float p.points_per_game,
    price := now_cost / 10,
    price_change := p.cost_change_event / 10,
    ownership := safe_float p.selected_by_percent,
    fixture_difficulty_next_5 := fixture_difficulty,
    expected_points_next_5 := expected,
    value_rating := value_rating,
    raw := p }

/-- Python `get_top_alternatives_by_position(position_id, exclude_ids,
limit=5)`: filter the snapshot by position, exclusion list and positive
minutes, build candidate dicts, stable-sort descending by expected
points, return the first `limit`. -/
def get_top_alternatives_by_position (s : ServiceState) (position_id : Int)
    (exclude_ids : List Int) (limit : Nat) : List Candidate :=
  let players := s.elements.filter (fun p =>
    p.element_type = position_id && !(exclude_ids.contains p.id) && p.minutes > 0)
  let candidates := players.map (alternative_candidate s)
  (sort_desc_by (fun c => c.expected_points_next_5) candidates).take limit

/-- Exact model of Python's built-in `round` to an integer: round half to
even (banker's rounding) on the rational value. -/
def python_round_int (q : ℚ) : Int :=
  let f := ⌊q⌋
  if q - f < 1/2 then f
  else if 1/2 < q - f then f + 1
  else if f % 2 = 0 then f else f + 1

/-- Python `round(q, 2)`: round half to even at two decimal places. -/
def python_round2 (q : ℚ) : ℚ := (python_round_int (q * 100) : ℚ) / 100

/-- Python `f"{q:.1f}"` on the exact rational value: one decimal place,
half-to-even rounding of the magnitude, sign in front. -/
def fmt1 (q : ℚ) : String :=
  let n := python_round_int (|q| * 10)
  (if q < 0 then "-" else "") ++ toString (n / 10) ++ "." ++ toString (n % 10)

/-- The three kinds of clause that `generate_transfer_reasoning` can
append to its `reasons` list, carrying the numbers interpolated into the
rendered sentence. -/
inductive ReasonClause where
  | betterForm (alt_form cur_form : ℚ)
  | easierFixtures
  | higherExpected (gap : ℚ)
  deriving DecidableEq, Repr

/-- The `reasons` list built by `generate_transfer_reasoning`, in append
order: a form clause when `alt_form > cur_form + 1`, a fixtures clause
when the alternative's difficulty is below `current - 0.5`, and a point
clause whenever the alternative's expected points are positive — its gap
is measured against `cur_form * 5`, not the held player's expected
points. -/
def transfer_reason_clauses (current_player : Player) (alternative : Candidate)
    (current_fixture_difficulty : ℚ) : List ReasonClause :=
  let cur_form := safe_float current_player.form
  let alt_form := alternative.form
  (if alt_form > cur_form + 1 then [ReasonClause.betterForm alt_form cur_form] else [])
    ++ (if alternative.fixture_difficulty_next_5 < current_fixture_difficulty - 1/2 then
          [ReasonClause.easierFixtures] else [])
    ++ (if alternative.expected_points_next_5 > 0 then
          [ReasonClause.higherExpected (alternative.expected_points_next_5 - cur_form * 5)]
        else [])

/-- Rendering of one reason clause to the Python f-string text. -/
def clause_text : ReasonClause → String
  | ReasonClause.betterForm a c =>
      "Better recent form (" ++ fmt1 a ++ " vs " ++ fmt1 c ++ ")"
  | ReasonClause.easierFixtures => "Easier upcoming fixtures"
  | ReasonClause.higherExpected g => "Higher expected points (+" ++ fmt1 g ++ ")"

/-- Python `generate_transfer_reasoning(current_player, alternative,
current_fixture_difficulty)`: join the clauses with `"; "`, or the fixed
fallback text when no clause applies. -/
def generate_transfer_reasoning (current_player : Player) (alternative : Candidate)
    (current_fixture_difficulty : ℚ) : String :=
  let reasons := transfer_reason_clauses current_player alternative
      current_fixture_difficulty
  if reasons.isEmpty then "Statistical upgrade recommended"
  else String.intercalate "; " (reasons.map clause_text)

/-- The `transfer_out` dict of a recommendation. -/
structure TransferOut where
  id : Int
  name : String
  team : Option String
  position : String
  total_points : ℚ
  form : ℚ
  points_per_game : ℚ
  price : ℚ
  deriving DecidableEq, Repr

/-- One recommendation dict produced by `analyze_transfer_priorities`. -/
structure TransferRec where
  transfer_out : TransferOut
  transfer_in : List Candidate
  priority_score : ℚ
  reasoning : String
  deriving DecidableEq, Repr

/-- Resolution of squad picks against the snapshot, keeping pick order and
silently dropping picks whose player id is absent (`next(..., None)`). -/
def resolve_picks (s : ServiceState) (squad : List SquadPick) :
    List (SquadPick × Player) :=
  squad.filterMap (fun pick =>
    (s.elements.find? (fun p => p.id = pick.element)).map (fun p => (pick, p)))

/-- Key iteration order of a Python `defaultdict` populated in list order:
each key at its first occurrence. -/
def insertion_order_keys : List Int → List Int
  | [] => []
  | k :: ks => k :: (insertion_order_keys ks).filter (fun x => x ≠ k)

/-- Inner loop body of `analyze_transfer_priorities` for one held player:
`none` models `continue` (no qualifying alternative). -/
def build_recommendation (s : ServiceState) (current_player_ids : List Int)
    (position_id : Int) (player : Player) : Option TransferRec :=
  let fixture_difficulty := calculate_fixture_difficulty s player.team 5
  let expected_current := calculate_expected_points player fixture_difficulty
  let alternatives := get_top_alternatives_by_position s position_id
      current_player_ids 10
  let significant_alts := alternatives.filter
      (fun alt => alt.expected_points_next_5 > expected_current + 6)
  match significant_alts with
  | [] => none
  | best_alt :: rest =>
    let points_gap := best_alt.expected_points_next_5 - expected_current
    let fixture_advantage := fixture_difficulty - best_alt.fixture_difficulty_next_5
    let priority_score := points_gap + fixture_advantage * 3
    some { transfer_out :=
             { id := player.id,
               name := py_strip (player.first_name ++ " " ++ player.second_name),
               team := (s.teams.lookup player.team).map (fun t => t.short_name),
               position := get_position_name player.element_type,
               total_points := player.total_points,
               form := safe_float player.form,
               points_per_game := safe_float player.points_per_game,
               price := (player.now_cost.getD 0) / 10 },
           transfer_in := (best_alt :: rest).take 3,
           priority_score := python_round2 priority_score,
           reasoning := generate_transfer_reasoning player best_alt
               fixture_difficulty }

/-- The unsorted recommendation list of `analyze_transfer_priorities`:
held players are resolved against the snapshot, grouped by position in
first-occurrence key order (Python dict iteration order), and each yields
at most one recommendation; the exclusion list passed to the alternatives
query is the entire current squad. -/
def transfer_recommendation_pool (s : ServiceState)
    (current_squad : List SquadPick) : List TransferRec :=
  let current_player_ids := current_squad.map (fun pick => pick.element)
  let resolved := resolve_picks s current_squad
  let position_ids := insertion_order_keys
      (resolved.map (fun rp => rp.2.element_type))
  position_ids.flatMap (fun position_id =>
    (resolved.filter (fun rp => rp.2.element_type = position_id)).filterMap
      (fun rp => build_recommendation s current_player_ids position_id rp.2))

/-- Python `analyze_transfer_priorities(current_squad, top_k=5)`.  `none`
models the `RuntimeError` raised when no bootstrap data is loaded.
Held players are grouped by position in first-occurrence key order
(Python dict iteration order), recommendations are stable-sorted
descending by priority score and truncated to `top_k`. -/
def analyze_transfer_priorities (s : ServiceState) (current_squad : List SquadPick)
    (top_k : Nat) : Option (List TransferRec) :=
  s.bootstrap.map (fun _ =>
    (sort_desc_by (fun r => r.priority_score)
      (transfer_recommendation_pool s current_squad)).take top_k)

/-- One candidate dict produced by `get_captain_suggestions`. -/
structure CaptainCandidate where
  id : Int
  name : String
  team : Option String
  position : String
  form : ℚ
  points_per_game : ℚ
  price : ℚ
  fixture_difficulty_next_5 : ℚ
  expected_points_next_gw : ℚ
  deriving DecidableEq, Repr

/-- Loop body of `get_captain_suggestions` for one resolved player: the
single-gameweek proxy divides the 5-period figure (computed at a
1-fixture horizon) by 5. -/
def captain_candidate (s : ServiceState) (player : Player) : CaptainCandidate :=
  let fd := calculate_fixture_difficulty s player.team 1
  let expected := calculate_expected_points player fd / 5
  { id := player.id,
    name := py_strip (player.first_name ++ " " ++ player.second_name),
    team := (s.teams.lookup player.team).map (fun t => t.short_name),
    position := get_position_name player.element_type,
    form := safe_float player.form,
    points_per_game := safe_float player.points_per_game,
    price := (player.now_cost.getD 0) / 10,
    fixture_difficulty_next_5 := fd,
    expected_points_next_gw := expected }

/-- Python `get_captain_suggestions(current_squad, limit=5)`: skip
unresolved picks and players with parsed form below 3.0, stable-sort
descending by the single-gameweek expected value, truncate to `limit`. -/
def get_captain_suggestions (s : ServiceState) (current_squad : List SquadPick)
    (limit : Nat) : List CaptainCandidate :=
  let candidates := current_squad.filterMap (fun pick =>
    match s.elements.find? (fun p => p.id = pick.element) with
    | none => none
    | some player =>
      if safe_float player.form < 3 then none
      else some (captain_candidate s player))
  (sort_desc_by (fun c => c.expected_points_next_gw) candidates).take limit

/-- One per-position comparison dict produced by `compare_positions`. -/
structure PositionComparison where
  position : String
  my_team_avg_points : ℚ
  rival_team_avg_points : ℚ
  my_team_expected : ℚ
  rival_team_expected : ℚ
  advantage : String
  difference : ℚ
  deriving DecidableEq, Repr

/-- Resolution of squad picks to player records, dropping unresolved ids
(the defaultdict build loop of `compare_positions`). -/
def resolve_players (s : ServiceState) (squad : List SquadPick) : List Player :=
  squad.filterMap (fun pick => s.elements.find? (fun p => p.id = pick.element))

/-- The players of one squad in one position category, in pick order. -/
def position_players (s : ServiceState) (squad : List SquadPick) (pos_id : Int) :
    List Player :=
  (resolve_players s squad).filter (fun p => p.element_type = pos_id)

/-- The advantage classification of `compare_positions`, as written in the
source: `"equal"` when both gaps are small, then `"mine"`, `"theirs"`,
`"mixed"`. -/
def advantage_label (diff expected_diff : ℚ) : String :=
  if |diff| < 5 ∧ |expected_diff| < 5 then "equal"
  else if 0 < diff ∧ 0 < expected_diff then "mine"
  else if diff < 0 ∧ expected_diff < 0 then "theirs"
  else "mixed"

/-- The advantage classification as the specification words it: `"equal"`
if both the season-points gap and expected-points gap have absolute value
under 5; `"mine"` if both gaps favor squad A; `"theirs"` if both favor
squad B; otherwise `"mixed"`.  Stated separately from `advantage_label`
so the refinement can be proved rather than assumed. -/
def claim_advantage_label (season_gap expected_gap : ℚ) : String :=
  if |season_gap| < 5 ∧ |expected_gap| < 5 then "equal"
  else if 0 < season_gap ∧ 0 < expected_gap then "mine"
  else if season_gap < 0 ∧ expected_gap < 0 then "theirs"
  else "mixed"

/-- Mean season points of a list of players (callers guarantee the list is
nonempty, matching the guarded division in the source). -/
def avg_total_points (players : List Player) : ℚ :=
  (players.map (fun p => p.total_points)).sum / (players.length : ℚ)

/-- Mean expected points (5-fixture horizon) of a list of players. -/
def avg_expected_points (s : ServiceState) (players : List Player) : ℚ :=
  (players.map (fun p =>
    calculate_expected_points p (calculate_fixture_difficulty s p.team 5))).sum
    / (players.length : ℚ)

/-- Loop body of `compare_positions` for one position category id:
`none` models the `continue` when either squad has no players there. -/
def position_comparison_for (s : ServiceState)
    (my_squad rival_squad : List SquadPick) (pos_id : Int) :
    Option PositionComparison :=
  let my_players := position_players s my_squad pos_id
  let rival_players := position_players s rival_squad pos_id
  if my_players.isEmpty || rival_players.isEmpty then none
  else
    let my_avg := avg_total_points my_players
    let their_avg := avg_total_points rival_players
    let my_expected := avg_expected_points s my_players
    let their_expected := avg_expected_points s rival_players
    let diff := my_avg - their_avg
    some { position := get_position_name pos_id,
           my_team_avg_points := my_avg,
           rival_team_avg_points := their_avg,
           my_team_expected := my_expected,
           rival_team_expected := their_expected,
           advantage := advantage_label diff (my_expected - their_expected),
           difference := diff }

/-- Python `compare_positions(my_squad, rival_squad)`: one comparison per
position category 1–4, skipped entirely when either squad resolves no
players in it. -/
def compare_positions (s : ServiceState) (my_squad rival_squad : List SquadPick) :
    List PositionComparison :=
  ([1, 2, 3, 4] : List Int).filterMap
    (position_comparison_for s my_squad rival_squad)

/-- A team summary as produced by `create_team_summary`, restricted to the
numeric fields read by `generate_head_to_head_insights` (the summary dict
always carries these keys, so the `.get` defaults of the source are
unreachable). -/
structure TeamSummary where
  overall_rank : ℚ
  total_points : ℚ
  gameweek_points : ℚ
  squad_value : ℚ
  bank : ℚ
  total_transfers : ℚ
  squad_fixture_difficulty : ℚ
  squad_expected_points_next_5 : ℚ
  deriving DecidableEq, Repr

/-- The seven-entry `advantages` dict of `generate_head_to_head_insights`. -/
structure HeadToHeadAdvantages where
  overall_rank : String
  total_points : String
  gameweek_points : String
  squad_value : String
  bank_balance : String
  upcoming_fixtures : String
  expected_points : String
  deriving DecidableEq, Repr

/-- The `advantages` map built by `generate_head_to_head_insights` (the
accompanying `insights` narrative strings are presentation-only and not
modelled): every entry is a strict comparison whose `else` branch is
`"theirs"`; rank and fixture difficulty compare with `<`, the rest
with `>`. -/
def head_to_head_advantages (my_summary rival_summary : TeamSummary) :
    HeadToHeadAdvantages :=
  { overall_rank :=
      if my_summary.overall_rank < rival_summary.overall_rank then "mine"
      else "theirs",
    total_points :=
      if my_summary.total_points > rival_summary.total_points then "mine"
      else "theirs",
    gameweek_points :=
      if my_summary.gameweek_points > rival_summary.gameweek_points then "mine"
      else "theirs",
    squad_value :=
      if my_summary.squad_value > rival_summary.squad_value then "mine"
      else "theirs",
    bank_balance :=
      if my_summary.bank > rival_summary.bank then "mine" else "theirs",
    upcoming_fixtures :=
      if my_summary.squad_fixture_difficulty <
          rival_summary.squad_fixture_difficulty then "mine"
      else "theirs",
    expected_points :=
      if my_summary.squad_expected_points_next_5 >
          rival_summary.squad_expected_points_next_5 then "mine"
      else "theirs" }

/-- Outcome of one gateway call as seen by `refresh_data`: a payload, a
`None` return (the gateway catches request exceptions and returns `None`),
or an exception escaping the call (absorbed by the outer
`except Exception` of `refresh_data`). -/
inductive FetchResult (α : Type) where
  | ok (value : α)
  | failed
  | raised
  deriving DecidableEq, Repr

/-- The bootstrap-derived field assignments performed by `refresh_data`
before the fixtures fetch: store the payload, the element list, the
team map, the event list, and the id of the event flagged current
(default 1 when none is flagged). -/
def state_with_bootstrap (s : ServiceState) (b : Bootstrap) : ServiceState :=
  { s with bootstrap := some b,
           elements := b.elements,
           teams := b.teams,
           events := b.events,
           current_gw :=
             match b.events.find? (fun e => e.is_current) with
             | some e => e.id
             | none => 1 }

/-- Python `refresh_data()`: a falsy bootstrap payload returns `False`
untouched; a bootstrap exception is caught before any assignment; after
the bootstrap fields are assigned, a fixtures payload (or a `None` from
the gateway, which becomes `fixtures or []`) yields `True`, while a
fixtures exception is caught by the outer handler and yields `False`
with the bootstrap fields already replaced. -/
def refresh_data (s : ServiceState) (bootstrap_fetch : FetchResult Bootstrap)
    (fixtures_fetch : FetchResult (List Fixture)) : Bool × ServiceState :=
  match bootstrap_fetch with
  | FetchResult.failed => (false, s)
  | FetchResult.raised => (false, s)
  | FetchResult.ok b =>
    let s1 := state_with_bootstrap s b
    match fixtures_fetch with
    | FetchResult.ok fxs => (true, { s1 with fixtures := fxs })
    | FetchResult.failed => (true, { s1 with fixtures := [] })
    | FetchResult.raised => (false, s1)

/-- A snapshot whose single fixture involves teams 1 and 2 only. -/
def other_teams_state : ServiceState :=
  { bootstrap := none, elements := [], teams := [], events := [],
    fixtures := [{ event := 1, team_h := 1, team_a := 2,
                   team_h_difficulty := some 3, team_a_difficulty := some 2,
                   finished := false }],
    current_gw := 1 }

/-- The pre-sort candidate list of `get_top_alternatives_by_position`:
survivors of the position / exclusion / minutes filters, in snapshot
iteration order. -/
def top_alternative_candidates (s : ServiceState) (position_id : Int)
    (exclude_ids : List Int) : List Candidate :=
  (s.elements.filter (fun p =>
    p.element_type = position_id && !(exclude_ids.contains p.id) &&
      p.minutes > 0)).map (alternative_candidate s)

/-- A demo player passing all `get_top_alternatives_by_position` filters. -/
def demo_player : Player :=
  { id := 1, element_type := 1, team := 1, minutes := 90, form := some 4,
    points_per_game := some 5, total_points := 80, now_cost := some 50,
    cost_change_event := 0, selected_by_percent := some 20,
    first_name := "Jordan", second_name := "Pickford" }

/-- A demo snapshot holding only `demo_player` and its team. -/
def demo_state : ServiceState :=
  { bootstrap := none, elements := [demo_player],
    teams := [(1, { short_name := "EVE" })], events := [], fixtures := [],
    current_gw := 1 }

/-- The pre-sort candidate list of `get_captain_suggestions`: resolved
squad players with parsed form at least 3, in pick order. -/
def captain_candidate_pool (s : ServiceState) (squad : List SquadPick) :
    List CaptainCandidate :=
  squad.filterMap (fun pick =>
    match s.elements.find? (fun p => p.id = pick.element) with
    | none => none
    | some player =>
      if safe_float player.form < 3 then none
      else some (captain_candidate s player))

/-- A demo snapshot whose two players have form 5 and form 1. -/
def captain_demo_state : ServiceState :=
  { bootstrap := none,
    elements :=
      [{ id := 1, element_type := 4, team := 1, minutes := 90, form := some 5,
         points_per_game := some 6, total_points := 90, now_cost := some 120,
         cost_change_event := 0, selected_by_percent := some 50,
         first_name := "Erling", second_name := "Haaland" },
       { id := 2, element_type := 2, team := 1, minutes := 45, form := some 1,
         points_per_game := some 2, total_points := 20, now_cost := some 45,
         cost_change_event := 0, selected_by_percent := some 5,
         first_name := "Low", second_name := "Form" }],
    teams := [(1, { short_name := "MCI" })], events := [], fixtures := [],
    current_gw := 1 }

/-- A snapshot with two same-position players for the C7 witness. -/
def cmp_demo_state : ServiceState :=
  { bootstrap := none,
    elements :=
      [{ id := 1, element_type := 1, team := 1, minutes := 90, form := some 4,
         points_per_game := some 5, total_points := 50, now_cost := some 50,
         cost_change_event := 0, selected_by_percent := some 20,
         first_name := "A", second_name := "Keeper" },
       { id := 2, element_type := 1, team := 1, minutes := 90, form := some 3,
         points_per_game := some 4, total_points := 40, now_cost := some 45,
         cost_change_event := 0, selected_by_percent := some 10,
         first_name := "B", second_name := "Keeper" }],
    teams := [], events := [], fixtures := [], current_gw := 1 }

/-- A player whose `now_cost` key is unset but whose season points are 10. -/
def zero_price_player : Player :=
  { id := 1, element_type := 1, team := 1, minutes := 30, form := some 2,
    points_per_game := some 3, total_points := 10, now_cost := none,
    cost_change_event := 0, selected_by_percent := some 1,
    first_name := "Free", second_name := "Agent" }

/-- A snapshot holding only `zero_price_player`. -/
def zero_price_state : ServiceState :=
  { bootstrap := none, elements := [zero_price_player], teams := [],
    events := [], fixtures := [], current_gw := 1 }

/-- A held player in excellent form (parsed form 10). -/
def c6_current : Player :=
  { id := 1, element_type := 3, team := 1, minutes := 90, form := some 10,
    points_per_game := some 0, total_points := 100, now_cost := some 80,
    cost_change_event := 0, selected_by_percent := some 30,
    first_name := "In", second_name := "Form" }

/-- A weak alternative candidate: form 0, neutral fixtures, and only 1
expected point over the horizon. -/
def c6_alt : Candidate :=
  { id := 2, name := "Weak Alt", team := none, position := "MID",
    total_points := 5, form := 0, points_per_game := 1, price := 5,
    price_change := 0, ownership := 1, fixture_difficulty_next_5 := 3,
    expected_points_next_5 := 1, value_rating := 1,
    raw := { id := 2, element_type := 3, team := 2, minutes := 10,
             form := some 0, points_per_game := some 1, total_points := 5,
             now_cost := some 50, cost_change_event := 0,
             selected_by_percent := some 1, first_name := "Weak",
             second_name := "Alt" } }

/-- Position of each clause kind in the append order of
`transfer_reason_clauses` (helper for stating the checking order). -/
def clause_rank : ReasonClause → Nat
  | ReasonClause.betterForm _ _ => 0
  | ReasonClause.easierFixtures => 1
  | ReasonClause.higherExpected _ => 2

/-- A form-0 alternative with no expected points and neutral fixtures. -/
def c6_flat_alt : Candidate :=
  { id := 3, name := "Flat Alt", team := none, position := "MID",
    total_points := 0, form := 0, points_per_game := 0, price := 4,
    price_change := 0, ownership := 0, fixture_difficulty_next_5 := 3,
    expected_points_next_5 := 0, value_rating := 0,
    raw := { id := 3, element_type := 3, team := 2, minutes := 10,
             form := some 0, points_per_game := some 0, total_points := 0,
             now_cost := some 40, cost_change_event := 0,
             selected_by_percent := some 0, first_name := "Flat",
             second_name := "Alt" } }

/-- A service state holding a previous snapshot (nonempty fixtures and
elements, current period 3). -/
def old_state : ServiceState :=
  { bootstrap := none,
    elements := [demo_player],
    teams := [(1, { short_name := "EVE" })],
    events := [{ id := 3, is_current := true }],
    fixtures := [{ event := 3, team_h := 1, team_a := 2,
                   team_h_difficulty := some 2, team_a_difficulty := some 4,
                   finished := false }],
    current_gw := 3 }

/-- A fresh bootstrap payload whose current period is 7. -/
def new_bootstrap : Bootstrap :=
  { elements := [zero_price_player],
    teams := [(2, { short_name := "ARS" })],
    events := [{ id := 7, is_current := true }] }

/-- A held goalkeeper with no recorded form (parsed as 0). -/
def c4_held : Player :=
  { id := 1, element_type := 1, team := 1, minutes := 0, form := none,
    points_per_game := none, total_points := 0, now_cost := none,
    cost_change_event := 0, selected_by_percent := none,
    first_name := "Old", second_name := "Keeper" }

/-- An alternative goalkeeper whose form 2.003 gives expected points
6.009 over the horizon. -/
def c4_alt : Player :=
  { id := 2, element_type := 1, team := 1, minutes := 1,
    form := some (2003/1000), points_per_game := none, total_points := 0,
    now_cost := some 40, cost_change_event := 0, selected_by_percent := none,
    first_name := "New", second_name := "Keeper" }

/-- A loaded snapshot holding the held player and the alternative. -/
def c4_state : ServiceState :=
  { bootstrap := some { elements := [c4_held, c4_alt], teams := [],
                        events := [] },
    elements := [c4_held, c4_alt],
    teams := [], events := [], fixtures := [], current_gw := 1 }

/-! ### Theorems -/

theorem sort_desc_by_perm {α β : Type} [LinearOrder β] (key : α → β) (l : List α) :
    List.Perm (sort_desc_by key l) l :=
  List.perm_insertionSort _ l

theorem mem_sort_desc_by {α β : Type} [LinearOrder β] {key : α → β} {l : List α}
    {x : α} : x ∈ sort_desc_by key l ↔ x ∈ l :=
  List.mem_insertionSort _

theorem sorted_sort_desc_by {α β : Type} [LinearOrder β] (key : α → β)
    (l : List α) : (sort_desc_by key l).Pairwise (fun a b => key b ≤ key a) := by
  haveI : IsTotal α (fun a b => key b ≤ key a) :=
    ⟨fun a b => le_total (key b) (key a)⟩
  haveI : IsTrans α (fun a b => key b ≤ key a) :=
    ⟨fun _ _ _ h1 h2 => le_trans h2 h1⟩
  exact List.sorted_insertionSort _ l

theorem sort_desc_by_filter_key {α β : Type} [LinearOrder β] [DecidableEq β]
    (key : α → β) (l : List α) (q : β) :
    (sort_desc_by key l).filter (fun x => decide (key x = q)) =
      l.filter (fun x => decide (key x = q)) := by
  have hpair : (l.filter (fun x => decide (key x = q))).Pairwise
      (fun a b => key b ≤ key a) := by
    apply List.pairwise_of_forall_mem_list
    intro a ha b hb
    have ha' := (List.mem_filter.mp ha).2
    have hb' := (List.mem_filter.mp hb).2
    simp only [decide_eq_true_eq] at ha' hb'
    rw [ha', hb']
  have hsub : List.Sublist (l.filter (fun x => decide (key x = q)))
      (sort_desc_by key l) :=
    List.sublist_insertionSort hpair (List.filter_sublist l)
  have hsub2 : List.Sublist (l.filter (fun x => decide (key x = q)))
      ((sort_desc_by key l).filter (fun x => decide (key x = q))) := by
    have := hsub.filter (fun x => decide (key x = q))
    rw [List.filter_filter] at this
    simpa only [Bool.and_self] using this
  have hlen : ((sort_desc_by key l).filter
      (fun x => decide (key x = q))).length =
      (l.filter (fun x => decide (key x = q))).length :=
    ((sort_desc_by_perm key l).filter _).length_eq
  exact (hsub2.eq_of_length hlen.symm).symm

theorem list_rat_sum_le {l : List ℚ} {b : ℚ} (h : ∀ x ∈ l, x ≤ b) :
    l.sum ≤ (l.length : ℚ) * b := by
  induction l with
  | nil => simp
  | cons a t ih =>
    have ha := h a (List.mem_cons_self a t)
    have ht := ih (fun x hx => h x (List.mem_cons_of_mem a hx))
    simp only [List.sum_cons, List.length_cons]
    push_cast
    nlinarith

theorem list_rat_le_sum {l : List ℚ} {a : ℚ} (h : ∀ x ∈ l, a ≤ x) :
    (l.length : ℚ) * a ≤ l.sum := by
  induction l with
  | nil => simp
  | cons c t ih =>
    have hc := h c (List.mem_cons_self c t)
    have ht := ih (fun x hx => h x (List.mem_cons_of_mem c hx))
    simp only [List.sum_cons, List.length_cons]
    push_cast
    nlinarith

theorem list_rat_mean_bounds {l : List ℚ} {a b : ℚ} (hne : l ≠ [])
    (h : ∀ x ∈ l, a ≤ x ∧ x ≤ b) :
    a ≤ l.sum / (l.length : ℚ) ∧ l.sum / (l.length : ℚ) ≤ b := by
  have hlen : 0 < (l.length : ℚ) := by
    have := List.length_pos.mpr hne
    exact_mod_cast this
  constructor
  · rw [le_div_iff₀ hlen]
    have := list_rat_le_sum (fun x hx => (h x hx).1)
    linarith [this]
  · rw [div_le_iff₀ hlen]
    have := list_rat_sum_le (fun x hx => (h x hx).2)
    linarith [this]

/-- Either the difficulty is the neutral 3, or it is the mean of a
nonempty list of values that all lie in [1, 5]. -/
theorem fixture_difficulty_cases (s : ServiceState) (team_id : Int) (n : Nat) :
    calculate_fixture_difficulty s team_id n = 3 ∨
    ∃ l : List ℚ, l ≠ [] ∧ (∀ x ∈ l, 1 ≤ x ∧ x ≤ 5) ∧
      calculate_fixture_difficulty s team_id n = l.sum / (l.length : ℚ) := by
  unfold calculate_fixture_difficulty
  simp only []
  split
  · left; rfl
  · right
    rename_i hne
    refine ⟨_, ?_, ?_, rfl⟩
    · simp only [ne_eq, List.map_eq_nil_iff]
      simpa using hne
    · intro x hx
      obtain ⟨f, _, rfl⟩ := List.mem_map.mp hx
      constructor
      · exact le_max_left 1 _
      · exact max_le (by norm_num) (min_le_left 5 _)

/-- C3: for every team id, horizon count and fixture set held in the
snapshot, `calculate_fixture_difficulty` returns a value in [1.0, 5.0],
and returns exactly 3.0 whenever no unfinished fixture references the
team as home or away. -/
theorem C3_fixture_difficulty_range_and_neutral (s : ServiceState)
    (team_id : Int) (next_fixtures : Nat) :
    (1 ≤ calculate_fixture_difficulty s team_id next_fixtures ∧
      calculate_fixture_difficulty s team_id next_fixtures ≤ 5) ∧
    ((∀ f ∈ s.fixtures, f.finished = false →
        f.team_h ≠ team_id ∧ f.team_a ≠ team_id) →
      calculate_fixture_difficulty s team_id next_fixtures = 3) := by
  constructor
  · rcases fixture_difficulty_cases s team_id next_fixtures with h | ⟨l, hne, hb, h⟩
    · rw [h]; norm_num
    · rw [h]; exact list_rat_mean_bounds hne hb
  · intro hnone
    unfold calculate_fixture_difficulty
    simp only []
    have hfm : (s.fixtures.filter (fun f => !f.finished)).filterMap
        (fun fx =>
          if fx.team_h = team_id then
            some { difficulty := fx.team_h_difficulty.getD 3, is_home := true,
                   gameweek := fx.event }
          else if fx.team_a = team_id then
            some { difficulty := fx.team_a_difficulty.getD 3, is_home := false,
                   gameweek := fx.event }
          else (none : Option TeamFixture)) = [] := by
      rw [List.filterMap_eq_nil_iff]
      intro fx hfx
      have hmem := List.mem_filter.mp hfx
      have hfin : fx.finished = false := by
        simpa using hmem.2
      obtain ⟨h1, h2⟩ := hnone fx hmem.1 hfin
      rw [if_neg h1, if_neg h2]
    rw [hfm]
    simp [sort_asc_by]

/-- C8: holding fixture difficulty fixed, `calculate_expected_points` is
monotonically non-decreasing in the player's (parsed) form value and in
the player's (parsed) points-per-appearance value: two players differing
only in one of these attributes compare accordingly. -/
theorem C8_expected_points_monotone (p : Player) (fd : ℚ)
    (f1 f2 g1 g2 : Option ℚ) :
    (safe_float f1 ≤ safe_float f2 →
      calculate_expected_points { p with form := f1 } fd ≤
        calculate_expected_points { p with form := f2 } fd) ∧
    (safe_float g1 ≤ safe_float g2 →
      calculate_expected_points { p with points_per_game := g1 } fd ≤
        calculate_expected_points { p with points_per_game := g2 } fd) := by
  have hmul : (0 : ℚ) < (if fd ≤ 5/2 then (6/5 : ℚ) else if fd ≥ 4 then 4/5 else 1) := by
    split
    · norm_num
    · split <;> norm_num
  unfold calculate_expected_points
  simp only []
  constructor
  · intro h
    nlinarith [hmul]
  · intro h
    nlinarith [hmul]

/-- Witness for C8 at a concrete player and difficulty. -/
theorem C8_expected_points_monotone_witness :
    calculate_expected_points
        { id := 1, element_type := 3, team := 1, minutes := 90,
          form := some 2, points_per_game := some 4, total_points := 50,
          now_cost := some 75, cost_change_event := 0,
          selected_by_percent := some 10, first_name := "A",
          second_name := "B" } 3 ≤
      calculate_expected_points
        { id := 1, element_type := 3, team := 1, minutes := 90,
          form := some 5, points_per_game := some 4, total_points := 50,
          now_cost := some 75, cost_change_event := 0,
          selected_by_percent := some 10, first_name := "A",
          second_name := "B" } 3 :=
  (C8_expected_points_monotone
    { id := 1, element_type := 3, team := 1, minutes := 90,
      form := some 2, points_per_game := some 4, total_points := 50,
      now_cost := some 75, cost_change_event := 0,
      selected_by_percent := some 10, first_name := "A",
      second_name := "B" } 3 (some 2) (some 5) (some 4) (some 4)).1
    (by norm_num [safe_float])

/-- C9: the head-to-head advantage map assigns `"theirs"` to each of the
seven dimensions whenever the two sides are exactly equal on that
metric, and never holds any value other than `"mine"` or `"theirs"`. -/
theorem C9_head_to_head_ties_go_to_rival (my_summary rival_summary : TeamSummary) :
    (let adv := head_to_head_advantages my_summary rival_summary
    (my_summary.overall_rank = rival_summary.overall_rank →
        adv.overall_rank = "theirs") ∧
    (my_summary.total_points = rival_summary.total_points →
        adv.total_points = "theirs") ∧
    (my_summary.gameweek_points = rival_summary.gameweek_points →
        adv.gameweek_points = "theirs") ∧
    (my_summary.squad_value = rival_summary.squad_value →
        adv.squad_value = "theirs") ∧
    (my_summary.bank = rival_summary.bank → adv.bank_balance = "theirs") ∧
    (my_summary.squad_fixture_difficulty = rival_summary.squad_fixture_difficulty →
        adv.upcoming_fixtures = "theirs") ∧
    (my_summary.squad_expected_points_next_5 =
        rival_summary.squad_expected_points_next_5 →
        adv.expected_points = "theirs") ∧
    (adv.overall_rank = "mine" ∨ adv.overall_rank = "theirs") ∧
    (adv.total_points = "mine" ∨ adv.total_points = "theirs") ∧
    (adv.gameweek_points = "mine" ∨ adv.gameweek_points = "theirs") ∧
    (adv.squad_value = "mine" ∨ adv.squad_value = "theirs") ∧
    (adv.bank_balance = "mine" ∨ adv.bank_balance = "theirs") ∧
    (adv.upcoming_fixtures = "mine" ∨ adv.upcoming_fixtures = "theirs") ∧
    (adv.expected_points = "mine" ∨ adv.expected_points = "theirs")) := by
  simp only [head_to_head_advantages]
  exact ⟨fun h => by simp [h], fun h => by simp [h], fun h => by simp [h],
         fun h => by simp [h], fun h => by simp [h], fun h => by simp [h],
         fun h => by simp [h],
         by split <;> simp, by split <;> simp, by split <;> simp,
         by split <;> simp, by split <;> simp, by split <;> simp,
         by split <;> simp⟩

/-- Witness for C9 at two concretely equal summaries. -/
theorem C9_head_to_head_ties_go_to_rival_witness :
    (head_to_head_advantages
        { overall_rank := 100, total_points := 50, gameweek_points := 10,
          squad_value := 100, bank := 2, total_transfers := 5,
          squad_fixture_difficulty := 3, squad_expected_points_next_5 := 40 }
        { overall_rank := 100, total_points := 50, gameweek_points := 10,
          squad_value := 100, bank := 2, total_transfers := 5,
          squad_fixture_difficulty := 3, squad_expected_points_next_5 := 40 }).overall_rank
      = "theirs" :=
  (C9_head_to_head_ties_go_to_rival
      { overall_rank := 100, total_points := 50, gameweek_points := 10,
        squad_value := 100, bank := 2, total_transfers := 5,
        squad_fixture_difficulty := 3, squad_expected_points_next_5 := 40 }
      { overall_rank := 100, total_points := 50, gameweek_points := 10,
        squad_value := 100, bank := 2, total_transfers := 5,
        squad_fixture_difficulty := 3, squad_expected_points_next_5 := 40 }).1
    rfl

/-- Witness for C3: team 7 appears in no fixture, so its difficulty is
the neutral 3 (and in range). -/
theorem C3_fixture_difficulty_range_and_neutral_witness :
    calculate_fixture_difficulty other_teams_state 7 5 = 3 :=
  (C3_fixture_difficulty_range_and_neutral other_teams_state 7 5).2
    (by decide)

theorem get_top_alternatives_eq (s : ServiceState) (position_id : Int)
    (exclude_ids : List Int) (limit : Nat) :
    get_top_alternatives_by_position s position_id exclude_ids limit =
      (sort_desc_by (fun c => c.expected_points_next_5)
        (top_alternative_candidates s position_id exclude_ids)).take limit :=
  rfl

/-- Every candidate returned by `get_top_alternatives_by_position` comes
from a snapshot player passing the three filters, and carries that
player's raw record and id. -/
theorem mem_top_alternatives (s : ServiceState) (position_id : Int)
    (exclude_ids : List Int) (limit : Nat) (c : Candidate)
    (hc : c ∈ get_top_alternatives_by_position s position_id exclude_ids limit) :
    ∃ p ∈ s.elements, c = alternative_candidate s p ∧
      p.element_type = position_id ∧ p.id ∉ exclude_ids ∧ p.minutes > 0 := by
  rw [get_top_alternatives_eq] at hc
  have hc2 := List.mem_of_mem_take hc
  rw [mem_sort_desc_by] at hc2
  obtain ⟨p, hp, rfl⟩ := List.mem_map.mp hc2
  have hfil := List.mem_filter.mp hp
  have hcond := hfil.2
  simp only [Bool.and_eq_true, decide_eq_true_eq, Bool.not_eq_true',
    List.contains, List.elem_eq_mem, decide_eq_false_iff_not] at hcond
  exact ⟨p, hfil.1, rfl, hcond.1.1, hcond.1.2, hcond.2⟩

/-- C5: `get_top_alternatives_by_position` returns no excluded id, no
zero-minutes player, at most `limit` entries, sorted descending by
expected points, and ties keep snapshot iteration order (the tied
entries of the result are a sublist of the pre-sort candidate list). -/
theorem C5_top_alternatives_contract (s : ServiceState) (position_id : Int)
    (exclude_ids : List Int) (limit : Nat) :
    (∀ c ∈ get_top_alternatives_by_position s position_id exclude_ids limit,
        c.id ∉ exclude_ids) ∧
    (∀ c ∈ get_top_alternatives_by_position s position_id exclude_ids limit,
        c.raw.minutes ≠ 0) ∧
    (get_top_alternatives_by_position s position_id exclude_ids limit).length
        ≤ limit ∧
    (get_top_alternatives_by_position s position_id exclude_ids limit).Pairwise
        (fun a b => b.expected_points_next_5 ≤ a.expected_points_next_5) ∧
    (∀ q : ℚ, List.Sublist
        ((get_top_alternatives_by_position s position_id exclude_ids limit).filter
          (fun c => decide (c.expected_points_next_5 = q)))
        ((top_alternative_candidates s position_id exclude_ids).filter
          (fun c => decide (c.expected_points_next_5 = q)))) := by
  refine ⟨?_, ?_, ?_, ?_, ?_⟩
  · intro c hc
    obtain ⟨p, _, rfl, _, hid, _⟩ :=
      mem_top_alternatives s position_id exclude_ids limit c hc
    exact hid
  · intro c hc
    obtain ⟨p, _, rfl, _, _, hmin⟩ :=
      mem_top_alternatives s position_id exclude_ids limit c hc
    show p.minutes ≠ 0
    omega
  · rw [get_top_alternatives_eq]
    exact List.length_take_le limit _
  · rw [get_top_alternatives_eq]
    exact List.Pairwise.sublist (List.take_sublist _ _)
      (sorted_sort_desc_by (fun c : Candidate => c.expected_points_next_5)
        (top_alternative_candidates s position_id exclude_ids))
  · intro q
    rw [get_top_alternatives_eq]
    have h1 := (List.take_sublist limit
        (sort_desc_by (fun c => c.expected_points_next_5)
          (top_alternative_candidates s position_id exclude_ids))).filter
        (fun c => decide (c.expected_points_next_5 = q))
    rwa [sort_desc_by_filter_key] at h1

/-- Witness for C5 at the demo snapshot: the returned candidate avoids
the exclusion list and has nonzero minutes. -/
theorem C5_top_alternatives_contract_witness :
    (alternative_candidate demo_state demo_player).id ∉ ([9] : List Int) ∧
    (alternative_candidate demo_state demo_player).raw.minutes ≠ 0 := by
  have h : get_top_alternatives_by_position demo_state 1 [9] 5 =
      [alternative_candidate demo_state demo_player] := by
    with_unfolding_all rfl
  exact ⟨(C5_top_alternatives_contract demo_state 1 [9] 5).1
      (alternative_candidate demo_state demo_player)
      (h ▸ List.mem_singleton_self _),
    (C5_top_alternatives_contract demo_state 1 [9] 5).2.1
      (alternative_candidate demo_state demo_player)
      (h ▸ List.mem_singleton_self _)⟩

theorem get_captain_suggestions_eq (s : ServiceState) (squad : List SquadPick)
    (limit : Nat) :
    get_captain_suggestions s squad limit =
      (sort_desc_by (fun c => c.expected_points_next_gw)
        (captain_candidate_pool s squad)).take limit :=
  rfl

/-- Every returned captain suggestion comes from a resolved squad player
whose parsed form is at least 3. -/
theorem mem_captain_suggestions (s : ServiceState) (squad : List SquadPick)
    (limit : Nat) (c : CaptainCandidate)
    (hc : c ∈ get_captain_suggestions s squad limit) :
    ∃ p ∈ s.elements, c = captain_candidate s p ∧ ¬safe_float p.form < 3 := by
  rw [get_captain_suggestions_eq] at hc
  have hc2 := List.mem_of_mem_take hc
  rw [mem_sort_desc_by] at hc2
  obtain ⟨pick, hpick, hsome⟩ := List.mem_filterMap.mp hc2
  cases hfind : s.elements.find? (fun p => p.id = pick.element) with
  | none =>
    rw [hfind] at hsome
    exact Option.noConfusion hsome
  | some player =>
    rw [hfind] at hsome
    have hsome2 : (if safe_float player.form < 3 then (none : Option CaptainCandidate)
        else some (captain_candidate s player)) = some c := hsome
    by_cases hform : safe_float player.form < 3
    · rw [if_pos hform] at hsome2
      exact Option.noConfusion hsome2
    · rw [if_neg hform] at hsome2
      have hcp : captain_candidate s player = c := Option.some_inj.mp hsome2
      exact ⟨player, List.mem_of_find?_eq_some hfind, hcp.symm, hform⟩

/-- C10: `get_captain_suggestions` excludes every squad player with parsed
form below 3.0 (a squad whose resolvable players all have form below 3.0
yields the empty list); each entry's single-gameweek value is the
5-period expected points at a 1-fixture difficulty horizon divided by 5;
the result is sorted descending by that value and truncated to `limit`. -/
theorem C10_captain_suggestions_contract (s : ServiceState)
    (current_squad : List SquadPick) (limit : Nat) :
    (∀ c ∈ get_captain_suggestions s current_squad limit, 3 ≤ c.form) ∧
    ((∀ pick ∈ current_squad, ∀ p ∈ s.elements, p.id = pick.element →
        safe_float p.form < 3) →
      get_captain_suggestions s current_squad limit = []) ∧
    (∀ c ∈ get_captain_suggestions s current_squad limit,
      ∃ p ∈ s.elements, c.id = p.id ∧
        c.expected_points_next_gw =
          calculate_expected_points p
            (calculate_fixture_difficulty s p.team 1) / 5) ∧
    (get_captain_suggestions s current_squad limit).Pairwise
        (fun a b => b.expected_points_next_gw ≤ a.expected_points_next_gw) ∧
    (get_captain_suggestions s current_squad limit).length ≤ limit := by
  refine ⟨?_, ?_, ?_, ?_, ?_⟩
  · intro c hc
    obtain ⟨p, _, rfl, hform⟩ := mem_captain_suggestions s current_squad limit c hc
    show 3 ≤ safe_float p.form
    linarith [not_lt.mp hform]
  · intro hall
    rw [get_captain_suggestions_eq]
    have hpool : captain_candidate_pool s current_squad = [] := by
      unfold captain_candidate_pool
      rw [List.filterMap_eq_nil_iff]
      intro pick hpick
      cases hfind : s.elements.find? (fun p => p.id = pick.element) with
      | none => rfl
      | some player =>
        have hmem := List.mem_of_find?_eq_some hfind
        have hid := List.find?_some hfind
        simp only [decide_eq_true_eq] at hid
        have hlow := hall pick hpick player hmem hid
        show (if safe_float player.form < 3 then (none : Option CaptainCandidate)
            else some (captain_candidate s player)) = none
        rw [if_pos hlow]
    rw [hpool]
    simp [sort_desc_by]
  · intro c hc
    obtain ⟨p, hp, rfl, _⟩ := mem_captain_suggestions s current_squad limit c hc
    exact ⟨p, hp, rfl, rfl⟩
  · rw [get_captain_suggestions_eq]
    exact List.Pairwise.sublist (List.take_sublist _ _)
      (sorted_sort_desc_by (fun c : CaptainCandidate => c.expected_points_next_gw)
        (captain_candidate_pool s current_squad))
  · rw [get_captain_suggestions_eq]
    exact List.length_take_le limit _

/-- Witness for C10: the form-5 player is suggested with form at least 3
and the correct single-gameweek value; a squad holding only the form-1
player yields no suggestions. -/
theorem C10_captain_suggestions_contract_witness :
    (3 ≤ (captain_candidate captain_demo_state
        { id := 1, element_type := 4, team := 1, minutes := 90, form := some 5,
          points_per_game := some 6, total_points := 90, now_cost := some 120,
          cost_change_event := 0, selected_by_percent := some 50,
          first_name := "Erling", second_name := "Haaland" }).form) ∧
    get_captain_suggestions captain_demo_state [{ element := 2 }] 5 = [] := by
  have h : get_captain_suggestions captain_demo_state [{ element := 1 }] 5 =
      [captain_candidate captain_demo_state
        { id := 1, element_type := 4, team := 1, minutes := 90, form := some 5,
          points_per_game := some 6, total_points := 90, now_cost := some 120,
          cost_change_event := 0, selected_by_percent := some 50,
          first_name := "Erling", second_name := "Haaland" }] := by
    with_unfolding_all rfl
  exact ⟨(C10_captain_suggestions_contract captain_demo_state
        [{ element := 1 }] 5).1 _ (h ▸ List.mem_singleton_self _),
    (C10_captain_suggestions_contract captain_demo_state
        [{ element := 2 }] 5).2.1 (by decide)⟩

/-- On the four position category ids, `get_position_name` is injective. -/
theorem get_position_name_injective_on_categories :
    ∀ a ∈ ([1, 2, 3, 4] : List Int), ∀ b ∈ ([1, 2, 3, 4] : List Int),
      get_position_name a = get_position_name b → a = b := by
  decide

/-- C7: `compare_positions` omits a position category exactly when either
squad resolves zero players in it; the advantage label of every produced
comparison is the classification the spec describes (`"equal"` when both
gaps are under 5 in absolute value, `"mine"` when both favor squad A,
`"theirs"` when both favor squad B, `"mixed"` otherwise), applied to the
comparison's own season-points and expected-points gaps. -/
theorem C7_compare_positions_classification (s : ServiceState)
    (my_squad rival_squad : List SquadPick) :
    (∀ d e : ℚ, advantage_label d e = claim_advantage_label d e) ∧
    (∀ comp ∈ compare_positions s my_squad rival_squad,
      comp.advantage = claim_advantage_label
        (comp.my_team_avg_points - comp.rival_team_avg_points)
        (comp.my_team_expected - comp.rival_team_expected)) ∧
    (∀ pos_id ∈ ([1, 2, 3, 4] : List Int),
      ((∃ comp ∈ compare_positions s my_squad rival_squad,
          comp.position = get_position_name pos_id) ↔
        (position_players s my_squad pos_id ≠ [] ∧
          position_players s rival_squad pos_id ≠ []))) := by
  refine ⟨fun d e => rfl, ?_, ?_⟩
  · intro comp hcomp
    obtain ⟨pos_id, hpos, hsome⟩ := List.mem_filterMap.mp hcomp
    unfold position_comparison_for at hsome
    simp only [] at hsome
    split at hsome
    · exact Option.noConfusion hsome
    · have hcomp2 := Option.some_inj.mp hsome
      rw [← hcomp2]
      rfl
  · intro pos_id hpos
    constructor
    · rintro ⟨comp, hcomp, hname⟩
      obtain ⟨pos_id2, hpos2, hsome⟩ := List.mem_filterMap.mp hcomp
      unfold position_comparison_for at hsome
      simp only [] at hsome
      split at hsome
      · exact Option.noConfusion hsome
      · rename_i hne
        have hcomp2 := Option.some_inj.mp hsome
        have hname2 : comp.position = get_position_name pos_id2 := by
          rw [← hcomp2]
        have heq : pos_id2 = pos_id :=
          get_position_name_injective_on_categories pos_id2 hpos2 pos_id hpos
            (hname2.symm.trans hname)
        rw [heq] at hne
        rw [Bool.or_eq_true, not_or] at hne
        refine ⟨?_, ?_⟩
        · rw [← List.isEmpty_eq_false]
          simpa using hne.1
        · rw [← List.isEmpty_eq_false]
          simpa using hne.2
    · rintro ⟨hmine, htheirs⟩
      have hguard : ¬((position_players s my_squad pos_id).isEmpty
          || (position_players s rival_squad pos_id).isEmpty) = true := by
        rw [Bool.or_eq_true, not_or]
        constructor
        · simpa using List.isEmpty_eq_false.mpr hmine
        · simpa using List.isEmpty_eq_false.mpr htheirs
      have hex : ∃ c, position_comparison_for s my_squad rival_squad pos_id =
          some c ∧ c.position = get_position_name pos_id := by
        unfold position_comparison_for
        simp only []
        rw [if_neg hguard]
        exact ⟨_, rfl, rfl⟩
      obtain ⟨c, hc, hcpos⟩ := hex
      exact ⟨c, List.mem_filterMap.mpr ⟨pos_id, hpos, hc⟩, hcpos⟩

/-- Witness for C7: with a goalkeeper on each side, the GKP category is
present in the comparison output. -/
theorem C7_compare_positions_classification_witness :
    ∃ comp ∈ compare_positions cmp_demo_state [{ element := 1 }]
        [{ element := 2 }], comp.position = get_position_name 1 :=
  ((C7_compare_positions_classification cmp_demo_state [{ element := 1 }]
      [{ element := 2 }]).2.2 1 (by decide)).mpr ⟨by decide, by decide⟩

/-- C1 counterexample: `zero_price_player` survives every filter of
`get_top_alternatives_by_position`, yet its returned `value_rating` is
0.0, while the claimed formula `(season_total_points / max(price,1)) * 10`
gives 100 for an unset (zero) price. -/
theorem C1_value_rating_counterexample :
    (get_top_alternatives_by_position zero_price_state 1 [] 5).map
        (fun c => c.value_rating) = [0] ∧
    zero_price_player.total_points /
        max (zero_price_player.now_cost.getD 0) 1 * 10 = 100 ∧
    (0 : ℚ) ≠ 100 := by
  refine ⟨by with_unfolding_all rfl, by with_unfolding_all rfl,
    by with_unfolding_all decide⟩

/-- C1 amended: for every survivor of the filters, the returned
`value_rating` equals `(season_total_points / price) * 10` when the price
is set and nonzero, and 0.0 (not `season_total_points * 10`) when the
price is unset or zero. -/
theorem C1_value_rating_amended (s : ServiceState) (position_id : Int)
    (exclude_ids : List Int) (limit : Nat) :
    ∀ c ∈ get_top_alternatives_by_position s position_id exclude_ids limit,
      c.value_rating =
        if c.raw.now_cost.getD 0 ≠ 0 then
          c.raw.total_points / c.raw.now_cost.getD 0 * 10
        else 0 := by
  intro c hc
  obtain ⟨p, _, rfl, _⟩ := mem_top_alternatives s position_id exclude_ids limit c hc
  have hval : (alternative_candidate s p).value_rating =
      (if p.now_cost.getD 0 ≠ 0 then
        p.total_points /
          (if p.now_cost.getD 0 = 0 then 1 else p.now_cost.getD 0) * 10
       else 0) := rfl
  have hraw : (alternative_candidate s p).raw = p := rfl
  rw [hval, hraw]
  by_cases h : p.now_cost.getD 0 = 0
  · rw [if_neg (not_not_intro h), if_neg (not_not_intro h)]
  · rw [if_pos h, if_pos h, if_neg h]

/-- Witness for C1 (amended) at the demo snapshot: price 50, 80 season
points, value rating 80/50*10 = 16. -/
theorem C1_value_rating_amended_witness :
    (alternative_candidate demo_state demo_player).value_rating =
      (if (alternative_candidate demo_state demo_player).raw.now_cost.getD 0 ≠ 0
       then (alternative_candidate demo_state demo_player).raw.total_points /
          (alternative_candidate demo_state demo_player).raw.now_cost.getD 0 * 10
       else 0) := by
  have h : get_top_alternatives_by_position demo_state 1 [9] 5 =
      [alternative_candidate demo_state demo_player] := by
    with_unfolding_all rfl
  exact C1_value_rating_amended demo_state 1 [9] 5
    (alternative_candidate demo_state demo_player)
    (h ▸ List.mem_singleton_self _)

/-- C6 counterexample: none of the claim's three conditions holds (the
alternative's form does not beat the held form by 1, its fixtures are not
easier by 0.5, and its expected points do not exceed the held player's),
so the claim predicts the default text; the code instead appends a
"higher expected points" clause because the alternative's expected points
are merely positive, and prints the gap against `cur_form * 5`, here the
negative -49.0. -/
theorem C6_reasoning_counterexample :
    generate_transfer_reasoning c6_current c6_alt 3 =
      "Higher expected points (+-49.0)" ∧
    ¬(c6_alt.form > safe_float c6_current.form + 1) ∧
    ¬(c6_alt.fixture_difficulty_next_5 < 3 - 1/2) ∧
    ¬(c6_alt.expected_points_next_5 > calculate_expected_points c6_current 3) ∧
    "Higher expected points (+-49.0)" ≠ "Statistical upgrade recommended" := by
  refine ⟨by with_unfolding_all rfl, by with_unfolding_all decide,
    by with_unfolding_all decide, by with_unfolding_all decide, by decide⟩

/-- C6 amended: the clauses are checked in order (form, fixtures,
points); the form clause appears iff the alternative's form exceeds the
held form by more than 1.0; the fixtures clause iff the alternative's
difficulty is more than 0.5 below the held player's; the points clause
appears iff the alternative's expected points are positive — regardless
of the held player's expected points — and states the gap
`alt.expected − 5 * held_form`, which may be negative; when no clause
applies the exact text "Statistical upgrade recommended" is returned. -/
theorem C6_reasoning_amended (current_player : Player)
    (alternative : Candidate) (current_fixture_difficulty : ℚ) :
    ((ReasonClause.betterForm alternative.form
        (safe_float current_player.form) ∈
        transfer_reason_clauses current_player alternative
          current_fixture_difficulty) ↔
      alternative.form > safe_float current_player.form + 1) ∧
    ((ReasonClause.easierFixtures ∈
        transfer_reason_clauses current_player alternative
          current_fixture_difficulty) ↔
      alternative.fixture_difficulty_next_5 <
        current_fixture_difficulty - 1/2) ∧
    (∀ g : ℚ, (ReasonClause.higherExpected g ∈
        transfer_reason_clauses current_player alternative
          current_fixture_difficulty) ↔
      (alternative.expected_points_next_5 > 0 ∧
        g = alternative.expected_points_next_5 -
          safe_float current_player.form * 5)) ∧
    (transfer_reason_clauses current_player alternative
        current_fixture_difficulty).Pairwise
      (fun a b => clause_rank a < clause_rank b) ∧
    (transfer_reason_clauses current_player alternative
        current_fixture_difficulty = [] →
      generate_transfer_reasoning current_player alternative
          current_fixture_difficulty = "Statistical upgrade recommended") := by
  have hdef : transfer_reason_clauses current_player alternative
      current_fixture_difficulty = [] →
      generate_transfer_reasoning current_player alternative
        current_fixture_difficulty = "Statistical upgrade recommended" := by
    intro hnil
    unfold generate_transfer_reasoning
    simp only []
    rw [hnil]
    rfl
  refine ⟨?_, ?_, ?_, ?_, hdef⟩ <;>
    · unfold transfer_reason_clauses
      simp only []
      split_ifs <;> simp_all [clause_rank]

/-- Witness for C6 (amended): with no applicable clause the exact default
text is returned. -/
theorem C6_reasoning_amended_witness :
    generate_transfer_reasoning c6_current c6_flat_alt 3 =
      "Statistical upgrade recommended" :=
  (C6_reasoning_amended c6_current c6_flat_alt 3).2.2.2.2
    (by with_unfolding_all rfl)

/-- C2 counterexample: the bootstrap fetch succeeds and the fixtures
fetch raises; `refresh_data` reports failure, yet the stored state has
already been changed (the bootstrap-derived fields were replaced before
the fixtures call), so the replacement is not all-or-nothing. -/
theorem C2_refresh_not_atomic_counterexample :
    (refresh_data old_state (FetchResult.ok new_bootstrap)
        FetchResult.raised).1 = false ∧
    (refresh_data old_state (FetchResult.ok new_bootstrap)
        FetchResult.raised).2 ≠ old_state := by
  refine ⟨rfl, by decide⟩

/-- C2 amended: `refresh_data` always returns a boolean (exceptions are
absorbed); a failed or raising bootstrap fetch returns failure with the
state unchanged; a fully successful refresh returns success with every
field replaced from the feeds, the active period defaulting to 1 when no
event is flagged current; a fixtures fetch that fails (gateway `None`)
still returns success, with the bootstrap fields replaced and the fixture
list reset to empty; and a fixtures fetch that raises returns failure
with the bootstrap-derived fields already replaced and the old fixture
list kept — so replacement is not all-or-nothing. -/
theorem C2_refresh_data_amended (s : ServiceState) (b : Bootstrap)
    (fxs : List Fixture) (ff : FetchResult (List Fixture)) :
    (refresh_data s FetchResult.failed ff = (false, s)) ∧
    (refresh_data s FetchResult.raised ff = (false, s)) ∧
    (refresh_data s (FetchResult.ok b) (FetchResult.ok fxs) =
      (true, { state_with_bootstrap s b with fixtures := fxs })) ∧
    (refresh_data s (FetchResult.ok b) FetchResult.failed =
      (true, { state_with_bootstrap s b with fixtures := [] })) ∧
    (refresh_data s (FetchResult.ok b) FetchResult.raised =
      (false, state_with_bootstrap s b)) ∧
    ((state_with_bootstrap s b).elements = b.elements ∧
      (state_with_bootstrap s b).teams = b.teams ∧
      (state_with_bootstrap s b).events = b.events ∧
      (state_with_bootstrap s b).fixtures = s.fixtures) ∧
    (b.events.find? (fun e => e.is_current) = none →
      (state_with_bootstrap s b).current_gw = 1) := by
  refine ⟨rfl, rfl, rfl, rfl, rfl, ⟨rfl, rfl, rfl, rfl⟩, ?_⟩
  intro hnone
  unfold state_with_bootstrap
  simp only []
  rw [hnone]

/-- Witness for C2 (amended) at a bootstrap with no current-flagged
period: the stored active period defaults to 1. -/
theorem C2_refresh_data_amended_witness :
    (state_with_bootstrap old_state
      { elements := [], teams := [],
        events := [{ id := 9, is_current := false }] }).current_gw = 1 :=
  (C2_refresh_data_amended old_state
      { elements := [], teams := [],
        events := [{ id := 9, is_current := false }] }
      [] FetchResult.failed).2.2.2.2.2.2 (by decide)

/-- Contract of one produced recommendation: the outgoing id is the held
player's, there are between 1 and 3 incoming alternatives, each beats the
held player's expected points by more than 6, and the stored priority
score is the two-decimal rounding of
`points_gap + fixture_advantage * 3` computed from the best (first)
alternative. -/
theorem build_recommendation_spec (s : ServiceState) (ids : List Int)
    (position_id : Int) (player : Player) (rec : TransferRec)
    (h : build_recommendation s ids position_id player = some rec) :
    rec.transfer_out.id = player.id ∧
    rec.transfer_in ≠ [] ∧
    rec.transfer_in.length ≤ 3 ∧
    rec.transfer_in =
      ((get_top_alternatives_by_position s position_id ids 10).filter
        (fun alt => alt.expected_points_next_5 >
          calculate_expected_points player
            (calculate_fixture_difficulty s player.team 5) + 6)).take 3 ∧
    rec.transfer_in.Pairwise
      (fun a b => b.expected_points_next_5 ≤ a.expected_points_next_5) ∧
    (∀ alt ∈ rec.transfer_in,
      calculate_expected_points player
          (calculate_fixture_difficulty s player.team 5) + 6 <
        alt.expected_points_next_5) ∧
    (∀ best ∈ rec.transfer_in.head?,
      rec.priority_score = python_round2
        (best.expected_points_next_5 -
            calculate_expected_points player
              (calculate_fixture_difficulty s player.team 5) +
          (calculate_fixture_difficulty s player.team 5 -
            best.fixture_difficulty_next_5) * 3)) := by
  have hsorted_alts : (get_top_alternatives_by_position s position_id
      ids 10).Pairwise
      (fun a b => b.expected_points_next_5 ≤ a.expected_points_next_5) := by
    rw [get_top_alternatives_eq]
    exact List.Pairwise.sublist (List.take_sublist _ _)
      (sorted_sort_desc_by (fun c : Candidate => c.expected_points_next_5)
        (top_alternative_candidates s position_id ids))
  unfold build_recommendation at h
  simp only [] at h
  split at h
  · exact Option.noConfusion h
  · rename_i best_alt rest heq
    have hrec := Option.some_inj.mp h
    subst hrec
    refine ⟨rfl, by simp, List.length_take_le 3 _, ?_, ?_, ?_, ?_⟩
    · show (best_alt :: rest).take 3 = _
      rw [← heq]
    · show ((best_alt :: rest).take 3).Pairwise _
      have h1 : (best_alt :: rest).Pairwise
          (fun a b => b.expected_points_next_5 ≤ a.expected_points_next_5) := by
        rw [← heq]
        exact List.Pairwise.sublist (List.filter_sublist _) hsorted_alts
      exact List.Pairwise.sublist (List.take_sublist _ _) h1
    · intro alt halt
      have halt2 := List.mem_of_mem_take halt
      rw [← heq] at halt2
      have hcond := (List.mem_filter.mp halt2).2
      simp only [decide_eq_true_eq] at hcond
      exact hcond
    · intro best hbest
      have hhead : ((best_alt :: rest).take 3).head? = some best_alt := rfl
      rw [hhead] at hbest
      have hbe : best_alt = best := by simpa using hbest
      subst hbe
      rfl

/-- C4 amended: when `analyze_transfer_priorities` succeeds (bootstrap
loaded), the result has at most `top_k` entries, is sorted descending by
the stored priority score, and every recommendation stems from a held
snapshot player and carries the **top** 3 qualifying alternatives:
`transfer_in` is exactly the first (up to) three entries, in descending
expected-points order, of the position's top-10 alternatives list
filtered to those beating the held player's expected points by more than
6.0 (the whole current squad being excluded); the stored priority score
is the **two-decimal rounding** of `points_gap + 3 * fixture_advantage`
(not the exact value). -/
theorem C4_transfer_priorities_amended (s : ServiceState)
    (current_squad : List SquadPick) (top_k : Nat) (recs : List TransferRec)
    (h : analyze_transfer_priorities s current_squad top_k = some recs) :
    recs.length ≤ top_k ∧
    recs.Pairwise (fun a b => b.priority_score ≤ a.priority_score) ∧
    ∀ rec ∈ recs, ∃ p ∈ s.elements,
      rec.transfer_out.id = p.id ∧
      rec.transfer_in ≠ [] ∧
      rec.transfer_in.length ≤ 3 ∧
      rec.transfer_in =
        ((get_top_alternatives_by_position s p.element_type
            (current_squad.map (fun pick => pick.element)) 10).filter
          (fun alt => alt.expected_points_next_5 >
            calculate_expected_points p
              (calculate_fixture_difficulty s p.team 5) + 6)).take 3 ∧
      rec.transfer_in.Pairwise
        (fun a b => b.expected_points_next_5 ≤ a.expected_points_next_5) ∧
      (∀ alt ∈ rec.transfer_in,
        calculate_expected_points p
            (calculate_fixture_difficulty s p.team 5) + 6 <
          alt.expected_points_next_5) ∧
      (∀ best ∈ rec.transfer_in.head?,
        rec.priority_score = python_round2
          (best.expected_points_next_5 -
              calculate_expected_points p
                (calculate_fixture_difficulty s p.team 5) +
            (calculate_fixture_difficulty s p.team 5 -
              best.fixture_difficulty_next_5) * 3)) := by
  unfold analyze_transfer_priorities at h
  cases hb : s.bootstrap with
  | none =>
    rw [hb] at h
    exact Option.noConfusion h
  | some b =>
    rw [hb] at h
    rw [Option.map_some'] at h
    have hrecs := Option.some_inj.mp h
    subst hrecs
    refine ⟨List.length_take_le _ _, ?_, ?_⟩
    · exact List.Pairwise.sublist (List.take_sublist _ _)
        (sorted_sort_desc_by (fun r : TransferRec => r.priority_score)
          (transfer_recommendation_pool s current_squad))
    · intro rec hrec
      have hrec2 := List.mem_of_mem_take hrec
      rw [mem_sort_desc_by] at hrec2
      unfold transfer_recommendation_pool at hrec2
      simp only [] at hrec2
      obtain ⟨pos_id, hpos, hrec3⟩ := List.mem_flatMap.mp hrec2
      obtain ⟨rp, hrp, hbuild⟩ := List.mem_filterMap.mp hrec3
      have hrp2 : rp ∈ resolve_picks s current_squad :=
        (List.mem_filter.mp hrp).1
      obtain ⟨pick, hpick, hmap⟩ := List.mem_filterMap.mp hrp2
      cases hfind : s.elements.find? (fun p => p.id = pick.element) with
      | none =>
        rw [hfind] at hmap
        exact Option.noConfusion hmap
      | some p =>
        rw [hfind] at hmap
        have hrp3 : (pick, p) = rp := Option.some_inj.mp hmap
        have het : rp.2.element_type = pos_id := by
          simpa using (List.mem_filter.mp hrp).2
        have hspec := build_recommendation_spec s _ pos_id rp.2 rec hbuild
        refine ⟨rp.2, ?_, hspec.1, hspec.2.1, hspec.2.2.1, ?_,
          hspec.2.2.2.2.1, hspec.2.2.2.2.2.1, hspec.2.2.2.2.2.2⟩
        · rw [← hrp3]
          exact List.mem_of_find?_eq_some hfind
        · rw [het]
          exact hspec.2.2.2.1

/-- C4 counterexample: the only recommendation's best alternative is the
6.009-expected-points keeper; `points_gap + 3 * fixture_advantage` equals
6.009 exactly, but the stored `priority_score` is the rounded 6.01, so
the claimed equality fails. -/
theorem C4_priority_score_counterexample :
    (analyze_transfer_priorities c4_state [{ element := 1 }] 5).map
        (fun recs => recs.map (fun r => r.priority_score)) =
      some [601/100] ∧
    (analyze_transfer_priorities c4_state [{ element := 1 }] 5).map
        (fun recs => recs.map (fun r => r.transfer_in.map (fun c => c.id))) =
      some [[2]] ∧
    (alternative_candidate c4_state c4_alt).expected_points_next_5 -
        calculate_expected_points c4_held
          (calculate_fixture_difficulty c4_state c4_held.team 5) +
      3 * (calculate_fixture_difficulty c4_state c4_held.team 5 -
        (alternative_candidate c4_state c4_alt).fixture_difficulty_next_5) =
      6009/1000 ∧
    (601/100 : ℚ) ≠ 6009/1000 := by
  refine ⟨by with_unfolding_all rfl, by with_unfolding_all rfl,
    by with_unfolding_all rfl, by with_unfolding_all decide⟩

/-- Witness for C4 (amended) at the concrete loaded snapshot. -/
theorem C4_transfer_priorities_amended_witness :
    ((analyze_transfer_priorities c4_state [{ element := 1 }] 5).getD
        []).length ≤ 5 ∧
    ((analyze_transfer_priorities c4_state [{ element := 1 }] 5).getD
        []).Pairwise (fun a b => b.priority_score ≤ a.priority_score) := by
  have h : analyze_transfer_priorities c4_state [{ element := 1 }] 5 =
      some ((analyze_transfer_priorities c4_state [{ element := 1 }] 5).getD
        []) := by
    with_unfolding_all rfl
  have hmain := C4_transfer_priorities_amended c4_state [{ element := 1 }] 5 _ h
  exact ⟨hmain.1, hmain.2.1⟩

end Rivals
